import Mathlib

/-!
Shallow embedding of `src/backend.js` (landing-backend): the field-mapping
table, the row builder and CSV quoting of `appendToZohoSheet`, the token
lifecycle of `getValidAccessToken`, and the HTTP request handler.  Outbound
HTTP calls (token endpoint, sheet content query, sheet append) and file-system
effects are modelled by explicit oracle parameters and state passing; time is
an explicit integer parameter.
-/

namespace LandingBackend

/-- JSON-like values as produced by `JSON.parse`.  Arrays are omitted: no
claim concerns them and no branch of the program treats them specially. -/
inductive JSVal where
  | str (s : String)
  | num (n : Int)
  | bool (b : Bool)
  | null
  | obj (fields : List (String × JSVal))

/-- JavaScript truthiness of a defined value. -/
def truthy : JSVal → Bool
  | .str s => s != ""
  | .num n => n != 0
  | .bool b => b
  | .null => false
  | .obj _ => true

/-- First-match association-list lookup (JS object property read). -/
def assocLookup (kvs : List (String × JSVal)) (k : String) : Option JSVal :=
  match kvs with
  | [] => none
  | kv :: rest => if kv.1 = k then some kv.2 else assocLookup rest k

/-- Property read `data[k]` on a value where the read does not throw; `none`
models JavaScript `undefined`.  String index properties mirror `"abc"["1"]`.
A property read on `null` throws a `TypeError` in JavaScript; the handler
models that throw explicitly at its line-287 guard (see `handleSave`), so the
`.null` equation below is never exercised on the handler's paths. -/
def jsGet : JSVal → String → Option JSVal
  | .obj kvs, k => assocLookup kvs k
  | .str s, k =>
    match k.toNat? with
    | some i => (s.data.get? i).map (fun c => .str (String.mk [c]))
    | none => none
  | _, _ => none

/-- `Object.keys(v)`: field names of an object in insertion order, index keys
of a string, empty for the other non-throwing primitives.  `Object.keys(null)`
throws in JavaScript, but the handler already throws at line 287 on a `null`
body (see `handleSave`), so the `.null` equation below is never reached. -/
def objKeys : JSVal → List String
  | .obj kvs => kvs.map (fun kv => kv.1)
  | .str s => (List.range s.data.length).map (fun i => toString i)
  | _ => []

/-- Own enumerable entries, as iterated by `for (let key in data)` on an
object record. -/
def objEntries : JSVal → List (String × JSVal)
  | .obj kvs => kvs
  | _ => []

/-- JavaScript `String(v)` on the modelled values. -/
def jsToString : JSVal → String
  | .str s => s
  | .num n => toString n
  | .bool b => cond b "true" "false"
  | .null => "null"
  | .obj _ => "[object Object]"

/-- `v || dflt` where `v` is a possibly-undefined property read. -/
def orElseJs (v : Option JSVal) (dflt : JSVal) : JSVal :=
  match v with
  | some x => if truthy x then x else dflt
  | none => dflt

/-- `FIELD_MAPPINGS` of `backend.js` lines 20-63, in source order. -/
def FIELD_MAPPINGS : List (String × List String) :=
  [ ("timestamp", ["Date", "timestamp", "date"]),
    ("quotationNo", ["Quotation No", "quotation_no"]),
    ("name", ["Full Name", "Name", "name"]),
    ("phone", ["Contact No", "Phone", "phone"]),
    ("email", ["Mail Id", "Email", "email"]),
    ("city", ["Location", "City", "city"]),
    ("address", ["Full Address", "address"]),
    ("mainService", ["Service", "service"]),
    ("onlineService", ["Online Service"]),
    ("budget", ["Budget"]),
    ("plotLength", ["Plot Length"]),
    ("plotWidth", ["Plot Width"]),
    ("archPlotArea", ["Plot Area"]),
    ("archSetback", ["Setback"]),
    ("typicalAreaAfterSetback", ["Typical Area"]),
    ("archFloors", ["Floors"]),
    ("archTerrace", ["Terrace"]),
    ("archTotalBuiltArea", ["Built Area"]),
    ("roadFacing", ["Road Facing"]),
    ("noOfHouses", ["Houses"]),
    ("rentalUnits", ["Rentals"]),
    ("shopsUnits", ["Shops"]),
    ("parkingUnits", ["Parking"]),
    ("archLift", ["Lift"]),
    ("archVastu", ["Vastu"]),
    ("rooms", ["Rooms"]),
    ("intFloorSelect", ["Interior Floors"]),
    ("archSubService", ["Sub Services"]),
    ("archSubTotal", ["Sub Total"]),
    ("archGst", ["GST"]),
    ("archTotal", ["Total"]),
    ("intTotalBuiltArea", ["Interior Area"]),
    ("constructionStage", ["Construction Stage"]),
    ("intSubTotal", ["Interior Subtotal"]),
    ("intGst", ["Interior GST"]),
    ("intTotal", ["Interior Total Cost"]),
    ("floorReq0", ["Ground floor requirement"]),
    ("floorReq1", ["Floor 1 requirement"]),
    ("floorReq2", ["Floor 2 requirement"]),
    ("floorReq3", ["Floor 3 requirement"]),
    ("floorReq4", ["Floor 4 requirement"]),
    ("floorReq5", ["Floor 5 requirement"]) ]

/-- `s.toLowerCase().trim().replace(/[^a-z0-9]/g, '')`: lowercase, then keep
only lowercase ASCII letters and digits (stripping also subsumes `trim`). -/
def jsNorm (s : String) : String :=
  ((s.toLower).data.filter
    (fun c => (decide (97 ≤ c.toNat) && decide (c.toNat ≤ 122))
      || (decide (48 ≤ c.toNat) && decide (c.toNat ≤ 57)))).asString

/-- `getBestMatch` of `backend.js` lines 147-159. -/
def getBestMatch (data : JSVal) (header : String) : Option JSVal :=
  let hLower := jsNorm header
  match jsGet data header with
  | some v => some v
  | none =>
    match (objEntries data).find? (fun kv => jsNorm kv.1 == hLower) with
    | some kv => some kv.2
    | none =>
      match FIELD_MAPPINGS.find?
          (fun m => (m.2.any (fun a => jsNorm a == hLower)) && (jsGet data m.1).isSome) with
      | some m => jsGet data m.1
      | none => none

/-- Resolution step 1 of the Field Mapper contract: exact key match. -/
def resolveExact (data : JSVal) (header : String) : Option JSVal :=
  jsGet data header

/-- Resolution step 2: normalized key match against every key of the record,
first match winning. -/
def resolveNormKey (data : JSVal) (header : String) : Option JSVal :=
  ((objEntries data).find? (fun kv => jsNorm kv.1 == jsNorm header)).map (fun kv => kv.2)

/-- Resolution step 3: alias match through the mapping table, indexing the
record by the table's canonical key. -/
def resolveAlias (data : JSVal) (header : String) : Option JSVal :=
  (FIELD_MAPPINGS.find?
    (fun m => (m.2.any (fun a => jsNorm a == jsNorm header)) && (jsGet data m.1).isSome)).bind
    (fun m => jsGet data m.1)

/-- The `headers` array of `appendToZohoSheet`, lines 166-175, in order. -/
def OUTPUT_HEADERS : List String :=
  [ "Date", "Quotation No", "Full Name", "Contact No", "Mail Id", "Location", "Full Address",
    "Service", "Online Service", "Budget", "Plot Length", "Plot Width", "Plot Area",
    "Setback", "Typical Area", "Floors", "Terrace", "Built Area", "Road Facing",
    "Houses", "Rentals", "Shops", "Parking", "Lift", "Vastu", "Rooms",
    "Interior Floors", "Sub Services", "Sub Total", "GST", "Total",
    "Interior Area", "Construction Stage", "Interior Subtotal", "Interior GST",
    "Interior Total Cost", "Ground floor requirement", "Floor 1 requirement",
    "Floor 2 requirement", "Floor 3 requirement", "Floor 4 requirement", "Floor 5 requirement" ]

/-- The `mappedValues` array of `appendToZohoSheet`, lines 177-220:
`data.timestamp || new Date().toISOString()` followed by `data.<key> || ''`
for each remaining canonical key, in source order. -/
def mappedValues (data : JSVal) (nowISO : String) : List JSVal :=
  [ orElseJs (jsGet data "timestamp") (.str nowISO),
    orElseJs (jsGet data "quotationNo") (.str ""),
    orElseJs (jsGet data "name") (.str ""),
    orElseJs (jsGet data "phone") (.str ""),
    orElseJs (jsGet data "email") (.str ""),
    orElseJs (jsGet data "city") (.str ""),
    orElseJs (jsGet data "address") (.str ""),
    orElseJs (jsGet data "mainService") (.str ""),
    orElseJs (jsGet data "onlineService") (.str ""),
    orElseJs (jsGet data "budget") (.str ""),
    orElseJs (jsGet data "plotLength") (.str ""),
    orElseJs (jsGet data "plotWidth") (.str ""),
    orElseJs (jsGet data "archPlotArea") (.str ""),
    orElseJs (jsGet data "archSetback") (.str ""),
    orElseJs (jsGet data "typicalAreaAfterSetback") (.str ""),
    orElseJs (jsGet data "archFloors") (.str ""),
    orElseJs (jsGet data "archTerrace") (.str ""),
    orElseJs (jsGet data "archTotalBuiltArea") (.str ""),
    orElseJs (jsGet data "roadFacing") (.str ""),
    orElseJs (jsGet data "noOfHouses") (.str ""),
    orElseJs (jsGet data "rentalUnits") (.str ""),
    orElseJs (jsGet data "shopsUnits") (.str ""),
    orElseJs (jsGet data "parkingUnits") (.str ""),
    orElseJs (jsGet data "archLift") (.str ""),
    orElseJs (jsGet data "archVastu") (.str ""),
    orElseJs (jsGet data "rooms") (.str ""),
    orElseJs (jsGet data "intFloorSelect") (.str ""),
    orElseJs (jsGet data "archSubService") (.str ""),
    orElseJs (jsGet data "archSubTotal") (.str ""),
    orElseJs (jsGet data "archGst") (.str ""),
    orElseJs (jsGet data "archTotal") (.str ""),
    orElseJs (jsGet data "intTotalBuiltArea") (.str ""),
    orElseJs (jsGet data "constructionStage") (.str ""),
    orElseJs (jsGet data "intSubTotal") (.str ""),
    orElseJs (jsGet data "intGst") (.str ""),
    orElseJs (jsGet data "intTotal") (.str ""),
    orElseJs (jsGet data "floorReq0") (.str ""),
    orElseJs (jsGet data "floorReq1") (.str ""),
    orElseJs (jsGet data "floorReq2") (.str ""),
    orElseJs (jsGet data "floorReq3") (.str ""),
    orElseJs (jsGet data "floorReq4") (.str ""),
    orElseJs (jsGet data "floorReq5") (.str "") ]

/-- The canonical record keys read by `mappedValues`, in column order. -/
def MAPPED_KEYS : List String := FIELD_MAPPINGS.map (fun m => m.1)

/-- Double every embedded double-quote character (`.replace(/"/g, '""')`). -/
def escapeQuotes : List Char → List Char
  | [] => []
  | c :: rest => if c = '"' then '"' :: '"' :: escapeQuotes rest else c :: escapeQuotes rest

/-- CSV field quoting used for both the local log and the sheet payload:
wrap in double quotes after doubling embedded double quotes. -/
def csvQuote (s : String) : String :=
  ("\"".data ++ escapeQuotes s.data ++ "\"".data).asString

/-- Modelled from the spec: standard CSV unquoting of a single quoted field
(the inverse direction, which the repository itself does not implement).
Consumes the field after its opening quote; `""` stands for one quote, a
lone quote terminates the field, anything after that is malformed. -/
def parseQuoted : List Char → Option (List Char)
  | [] => none
  | c :: rest =>
    if c = '"' then
      match rest with
      | [] => some []
      | c2 :: rest2 => if c2 = '"' then (parseQuoted rest2).map (fun l => '"' :: l) else none
    else (parseQuoted rest).map (fun l => c :: l)

/-- Modelled from the spec: standard CSV parse of one fully quoted field. -/
def csvUnquote (s : String) : Option String :=
  match s.data with
  | '"' :: rest => (parseQuoted rest).map List.asString
  | _ => none

/-- Header detection of `appendToZohoSheet` lines 228-241: some returned row
whose first cell's `content` is exactly `"Date"`. -/
def headerFound (rows : List (List (Option String))) : Bool :=
  rows.any (fun row =>
    match row.head? with
    | some c => c == some "Date"
    | none => false)

/-- The fixed header line of the sheet payload. -/
def headerRowLine : String :=
  String.intercalate "," (OUTPUT_HEADERS.map csvQuote)

/-- The data line of the sheet payload: every mapped value stringified and
CSV-quoted. -/
def dataRowLine (data : JSVal) (nowISO : String) : String :=
  String.intercalate "," ((mappedValues data nowISO).map (fun v => csvQuote (jsToString v)))

/-- `csvContent` of `appendToZohoSheet` lines 245-250: header line prefixed
exactly when `"Date"` was not found. -/
def zohoCsvContent (rows : List (List (Option String))) (data : JSVal) (nowISO : String) : String :=
  (if !(headerFound rows) then headerRowLine ++ "\n" else "") ++ dataRowLine data nowISO

/-- The persisted `tokens.json` record. -/
structure TokenRecord where
  access_token : Option String
  refresh_token : Option String
  expires_at : Option Int

/-- Environment and network oracle for `getValidAccessToken`:
configuration variables, the current time, the outcomes the token endpoint
would give to the exchange and refresh calls, and whether writing
`tokens.json` succeeds. -/
structure AuthEnv where
  refreshEnv : Option String
  grantCode : Option String
  now : Int
  exchangeResp : Except String (String × Option String × Int)
  refreshResp : Except String (String × Int)
  writeOk : Bool

/-- Truthiness of an optional environment string (unset or empty is falsy). -/
def envSet : Option String → Bool
  | some s => s != ""
  | none => false

/-- The freshness test of line 116: `Date.now() >= (tokens.expires_at || 0) - 60000`. -/
def tokenExpired (now : Int) (expiresAt : Option Int) : Bool :=
  decide (now ≥ expiresAt.getD 0 - 60000)

/-- `getValidAccessToken` of lines 65-145, as a state transformer on the
persisted token file.  Returns the access token (possibly `none`, modelling
an `undefined` property) or the thrown error message, with the resulting
file state. -/
def getValidAccessToken (env : AuthEnv) (file : Option TokenRecord) :
    Except String (Option String) × Option TokenRecord :=
  let tokens : Option TokenRecord :=
    match file with
    | some t => some t
    | none => if envSet env.refreshEnv then some ⟨none, env.refreshEnv, some 0⟩ else none
  match tokens with
  | none =>
    if !(envSet env.grantCode) then
      (.error "No authentication method available. Set ZOHO_REFRESH_TOKEN or ZOHO_GRANT_CODE.", file)
    else
      match env.exchangeResp with
      | .ok (a, r, expIn) =>
        (.ok (some a), if env.writeOk then some ⟨some a, r, some (env.now + expIn * 1000)⟩ else file)
      | .error _ => (.error "Zoho Authentication failed. Please check ZOHO_GRANT_CODE.", file)
  | some tok =>
    if tokenExpired env.now tok.expires_at then
      match env.refreshResp with
      | .ok (a, expIn) =>
        (.ok (some a),
          if env.writeOk then
            some { tok with access_token := some a, expires_at := some (env.now + expIn * 1000) }
          else file)
      | .error _ =>
        if envSet env.grantCode then (.error "Zoho token refresh failed.", none)
        else (.error "Zoho token refresh failed.", file)
    else (.ok tok.access_token, file)

/-- Network oracle for `appendToZohoSheet`: the auth environment, the outcome
of the `A1:A10` content query (rows of optional cell contents), and the
outcome of the append call (the `status` field of the response body). -/
structure ZohoEnv where
  auth : AuthEnv
  checkResp : Except String (List (List (Option String)))
  appendResp : Except String String

/-- Result of `appendToZohoSheet`: the `status` the caller reads, the `error`
text present exactly on the caught-failure path, and (for specification
purposes) the CSV payload submitted to the append endpoint, when reached. -/
structure ZohoOutcome where
  status : String
  error : Option String
  sent : Option String

/-- `appendToZohoSheet` of lines 161-272: obtain a token, query `A1:A10`,
build the CSV payload, submit it; any failure along the way is caught and
becomes `{status: 'failure', error: message}` instead of a thrown error. -/
def appendToZohoSheet (env : ZohoEnv) (tokFile : Option TokenRecord) (data : JSVal)
    (nowISO : String) : ZohoOutcome × Option TokenRecord :=
  let p := getValidAccessToken env.auth tokFile
  match p.1 with
  | .error m => (⟨"failure", some m, none⟩, p.2)
  | .ok _ =>
    match env.checkResp with
    | .error m => (⟨"failure", some m, none⟩, p.2)
    | .ok rows =>
      match env.appendResp with
      | .error m => (⟨"failure", some m, some (zohoCsvContent rows data nowISO)⟩, p.2)
      | .ok st => (⟨st, none, some (zohoCsvContent rows data nowISO)⟩, p.2)

/-- The JSON body the handler answers with, plus the HTTP status code. -/
structure HResponse where
  code : Nat
  success : Bool
  zoho : Option String
  error : Option String

/-- Handler outcome: response and resulting local-file states. -/
structure HandlerResult where
  resp : HResponse
  csvFile : Option String
  tokFile : Option TokenRecord

/-- The local log line of line 292: the record's own keys, each value
defaulted with `|| ''`, stringified and CSV-quoted. -/
def localCsvLine (data : JSVal) : String :=
  String.intercalate ","
    ((objKeys data).map (fun h => csvQuote (jsToString (orElseJs (jsGet data h) (.str "")))))

/-- The chunk appended to `bookings.csv`: a plain (unquoted) header line of
the record's keys when the file does not yet exist, then the data line. -/
def localCsvRow (data : JSVal) (fileExists : Bool) : String :=
  (if fileExists then "" else String.intercalate "," (objKeys data) ++ "\n")
    ++ localCsvLine data ++ "\n"

/-- Whether a parsed value is the JSON `null`: the one `JSON.parse` result on
which the property read `data.name` of line 287 throws a `TypeError` (every
other primitive is boxed and yields `undefined`). -/
def isNullV : JSVal → Bool
  | .null => true
  | _ => false

/-- The V8 `TypeError` message thrown by the `data.name` read of line 287 when
`data` is `null`. -/
def nullReadError : String := "Cannot read properties of null (reading 'name')"

/-- The POST branch of the request handler, lines 283-303.  `parsed` is the
outcome of reading and `JSON.parse`-ing the body (`.error` covers both the
empty-body throw and a parse failure); when the parsed value is `null`, the
`data.name` read of line 287 throws before the local save; `appendErr` is the
error message of `fs.appendFileSync` when it throws, `none` when the local
append succeeds.  The single `try/catch` of the source turns any of those
throws into a 400 response; otherwise the sheet append runs and a 200
response reports its status. -/
def handleSave (env : ZohoEnv) (parsed : Except String JSVal) (appendErr : Option String)
    (nowISO : String) (csvFile : Option String) (tokFile : Option TokenRecord) : HandlerResult :=
  match parsed with
  | .error m => ⟨⟨400, false, none, some m⟩, csvFile, tokFile⟩
  | .ok data =>
    if isNullV data then ⟨⟨400, false, none, some nullReadError⟩, csvFile, tokFile⟩
    else
      match appendErr with
      | some m => ⟨⟨400, false, none, some m⟩, csvFile, tokFile⟩
      | none =>
        let csvFile' := some (csvFile.getD "" ++ localCsvRow data csvFile.isSome)
        let z := appendToZohoSheet env tokFile data nowISO
        ⟨⟨200, true, some z.1.status, none⟩, csvFile', z.2⟩

/-- Number of lines of the local log (each written record ends in a newline). -/
def lineCount : Option String → Nat
  | none => 0
  | some s => s.data.count '\n'

/-! ## General lemmas about the embedding -/

theorem asString_data (s : String) : s.data.asString = s := rfl

theorem data_append (a b : String) : (a ++ b).data = a.data ++ b.data := rfl

theorem empty_append (s : String) : "" ++ s = s := rfl

/-- The row builder reads one fixed canonical key per column, in the order of
the mapping table, defaulting the first column to the current timestamp and
every other column to the empty string. -/
theorem mappedValues_eq_map (data : JSVal) (nowISO : String) :
    mappedValues data nowISO = MAPPED_KEYS.map (fun k =>
      orElseJs (jsGet data k) (if k == "timestamp" then .str nowISO else .str "")) := rfl

theorem parseQuoted_escape (l : List Char) : parseQuoted (escapeQuotes l ++ ['"']) = some l := by
  induction l with
  | nil => rfl
  | cons c rest ih =>
    by_cases hc : c = '"'
    · subst hc
      rw [escapeQuotes, if_pos rfl, List.cons_append, List.cons_append, parseQuoted.eq_def]
      simp [ih]
    · rw [escapeQuotes, if_neg hc, List.cons_append, parseQuoted.eq_def]
      simp [hc, ih]

theorem headerFound_iff (rows : List (List (Option String))) :
    headerFound rows = true ↔ ∃ row ∈ rows, row.head? = some (some "Date") := by
  rw [headerFound, List.any_eq_true]
  refine exists_congr (fun row => and_congr_right (fun _ => ?_))
  cases h : row.head? <;> simp [h]

theorem count_line (content line : String) (h : '\n' ∉ line.data) :
    ((content ++ (("" : String) ++ line ++ "\n")).data.count '\n') = content.data.count '\n' + 1 := by
  simp [data_append, List.count_append, List.count_eq_zero.mpr h]

/-! ## Claim theorems -/

/-- C1 (amended): the Output Row built by `appendToZohoSheet` has exactly 42
fixed columns in the order of the mapping table, each resolved independently
from the Submission Record by its canonical key; an unresolved (or falsy)
column is the empty string, except the first `Date` column, which defaults to
the current ISO timestamp. -/
theorem outputRow_columns (data : JSVal) (nowISO : String) :
    (mappedValues data nowISO).length = 42
    ∧ mappedValues data nowISO = MAPPED_KEYS.map (fun k =>
        orElseJs (jsGet data k) (if k == "timestamp" then .str nowISO else .str "")) :=
  ⟨rfl, mappedValues_eq_map data nowISO⟩

/-- C1 counterexample: on the empty record the row has 42 columns, not 41, and
its unresolved first `Date` column is the timestamp, not the empty string. -/
theorem outputRow_columns_cex :
    ¬((mappedValues (JSVal.obj []) "2026-01-01T00:00:00.000Z").length = 41)
    ∧ (mappedValues (JSVal.obj []) "2026-01-01T00:00:00.000Z")[0]?
        = some (JSVal.str "2026-01-01T00:00:00.000Z") :=
  ⟨by decide, rfl⟩

/-- C2 (amended): every cell of the Output Row resolves by the fixed canonical
key of its column — the record's own value when that key is present with a
truthy value, otherwise the empty string (the timestamp for column 0); header
names and aliases play no role, and no cell is ever the undefined value (every
cell is the total `orElseJs` result). -/
theorem outputRow_cell_resolution (data : JSVal) (nowISO : String) (i : Nat) :
    (mappedValues data nowISO)[i]? = (MAPPED_KEYS[i]?).map (fun k =>
      orElseJs (jsGet data k) (if k == "timestamp" then JSVal.str nowISO else JSVal.str "")) := by
  rw [mappedValues_eq_map]
  exact List.getElem?_map ..

/-- C2 counterexample: the record `{"Full Name": "Asha"}` has an exact key
match for the header `Full Name` (column 2), yet that output cell is the empty
string, not `"Asha"`: the row builder never consults the header names. -/
theorem outputRow_cell_resolution_cex :
    OUTPUT_HEADERS[2]? = some "Full Name"
    ∧ jsGet (JSVal.obj [("Full Name", JSVal.str "Asha")]) "Full Name" = some (JSVal.str "Asha")
    ∧ (mappedValues (JSVal.obj [("Full Name", JSVal.str "Asha")]) "T")[2]? = some (JSVal.str "")
    ∧ ("" : String) ≠ "Asha" :=
  ⟨rfl, rfl, rfl, by decide⟩

/-- C3: the freshness test of `getValidAccessToken` holds exactly when
`now >= expires_at - 60000`, equivalently when `expires_at` is below or at
`now + 60000`; at the exact 60-second boundary the token counts as expired and
`getValidAccessToken` performs the refresh call (its result is the refreshed
token), while a strictly fresher token is returned without refreshing. -/
theorem tokenExpired_spec :
    (∀ now e : Int, tokenExpired now (some e) = true ↔ now ≥ e - 60000)
    ∧ (∀ now e : Int, tokenExpired now (some e) = true ↔ e < now + 60000 ∨ e = now + 60000)
    ∧ (∀ now : Int, tokenExpired now (some (now + 60000)) = true)
    ∧ (∀ env tok a x, env.refreshResp = .ok (a, x) → tokenExpired env.now tok.expires_at = true →
        (getValidAccessToken env (some tok)).1 = .ok (some a))
    ∧ (∀ env tok, tokenExpired env.now tok.expires_at = false →
        (getValidAccessToken env (some tok)).1 = .ok tok.access_token) := by
  refine ⟨?_, ?_, ?_, ?_, ?_⟩
  · intro now e
    simp only [tokenExpired, Option.getD, decide_eq_true_eq]
  · intro now e
    simp only [tokenExpired, Option.getD, decide_eq_true_eq]
    omega
  · intro now
    simp only [tokenExpired, Option.getD, decide_eq_true_eq]
    omega
  · intro env tok a x h1 h2
    simp [getValidAccessToken, h1, h2]
  · intro env tok h
    simp [getValidAccessToken, h]

def envC3 : AuthEnv := ⟨none, none, 1000, .error "x", .ok ("newTok", 3600), true⟩

def tokC3boundary : TokenRecord := ⟨some "oldTok", some "r", some 61000⟩

def tokC3fresh : TokenRecord := ⟨some "oldTok", some "r", some 61001⟩

/-- C3 witness: at `now = 1000`, a token expiring at `61000` sits exactly at
the boundary and is refreshed, while one expiring at `61001` is reused. -/
theorem tokenExpired_spec_witness :
    (tokenExpired 0 (some 60000) = true ↔ (0 : Int) ≥ 60000 - 60000)
    ∧ tokenExpired 1000 (some (1000 + 60000)) = true
    ∧ (getValidAccessToken envC3 (some tokC3boundary)).1 = .ok (some "newTok")
    ∧ (getValidAccessToken envC3 (some tokC3fresh)).1 = .ok (some "oldTok") :=
  ⟨tokenExpired_spec.1 0 60000, tokenExpired_spec.2.2.1 1000,
    tokenExpired_spec.2.2.2.1 envC3 tokC3boundary "newTok" 3600 rfl (by decide),
    tokenExpired_spec.2.2.2.2 envC3 tokC3fresh (by decide)⟩

/-- C4 (amended): when the body parses and the local append succeeds on an
already-existing log file whose new data line contains no newline, the handler
answers 200 with `success: true` and reports the sheet status verbatim, and
the log line count grows by exactly one whatever the remote outcome; a failure
at any remote stage (authentication, content query, append call) makes
`appendToZohoSheet` return `{status: 'failure', error: message}` instead of
throwing.  (When the log file does not yet exist the count instead grows by
two: a header line plus the record line — see the counterexample.) -/
theorem remote_failure_soft_and_log_grows (env : ZohoEnv) (data : JSVal)
    (nowISO content : String) (tokFile : Option TokenRecord)
    (hN : isNullV data = false) (hNL : '\n' ∉ (localCsvLine data).data) :
    (handleSave env (.ok data) none nowISO (some content) tokFile).resp.code = 200
    ∧ (handleSave env (.ok data) none nowISO (some content) tokFile).resp.success = true
    ∧ (handleSave env (.ok data) none nowISO (some content) tokFile).resp.zoho
        = some (appendToZohoSheet env tokFile data nowISO).1.status
    ∧ lineCount (handleSave env (.ok data) none nowISO (some content) tokFile).csvFile
        = lineCount (some content) + 1
    ∧ (∀ m, (getValidAccessToken env.auth tokFile).1 = .error m →
        (appendToZohoSheet env tokFile data nowISO).1 = ⟨"failure", some m, none⟩)
    ∧ (∀ t m, (getValidAccessToken env.auth tokFile).1 = .ok t → env.checkResp = .error m →
        (appendToZohoSheet env tokFile data nowISO).1 = ⟨"failure", some m, none⟩)
    ∧ (∀ t rows m, (getValidAccessToken env.auth tokFile).1 = .ok t → env.checkResp = .ok rows →
        env.appendResp = .error m →
        (appendToZohoSheet env tokFile data nowISO).1
          = ⟨"failure", some m, some (zohoCsvContent rows data nowISO)⟩) := by
  refine ⟨?_, ?_, ?_, ?_, ?_, ?_, ?_⟩
  · simp [handleSave, hN]
  · simp [handleSave, hN]
  · simp [handleSave, hN]
  · simp only [handleSave, hN, Bool.false_eq_true, if_false]
    exact count_line content (localCsvLine data) hNL
  · intro m h
    simp [appendToZohoSheet, h]
  · intro t m h1 h2
    simp [appendToZohoSheet, h1, h2]
  · intro t rows m h1 h2 h3
    simp [appendToZohoSheet, h1, h2, h3]

def envC4 : ZohoEnv :=
  ⟨⟨none, none, 1000000, .error "x", .error "network down", true⟩, .ok [], .ok "success"⟩

def tokC4 : TokenRecord := ⟨some "a", some "r", some 0⟩

def dataC4 : JSVal := JSVal.obj [("name", JSVal.str "Asha")]

/-- C4 witness: stored token expired, no grant code configured, refresh call
fails — the handler still answers 200 with `zoho: "failure"` and the log
gains exactly one line. -/
theorem remote_failure_soft_witness :
    (handleSave envC4 (.ok dataC4) none "T" (some "h\n") (some tokC4)).resp.code = 200
    ∧ (handleSave envC4 (.ok dataC4) none "T" (some "h\n") (some tokC4)).resp.zoho
        = some "failure"
    ∧ lineCount (handleSave envC4 (.ok dataC4) none "T" (some "h\n") (some tokC4)).csvFile
        = lineCount (some "h\n") + 1 := by
  have h := remote_failure_soft_and_log_grows envC4 dataC4 "T" "h\n" (some tokC4) rfl (by decide)
  refine ⟨h.1, ?_, h.2.2.2.1⟩
  have hz := h.2.2.2.2.1 "Zoho token refresh failed." rfl
  rw [h.2.2.1, hz]

/-- C4 counterexample: on a not-yet-existing log file the line count grows by
two (key header line plus record line), not by one. -/
theorem remote_failure_soft_cex :
    lineCount (handleSave envC4 (.ok dataC4) none "T" none none).csvFile = 2
    ∧ lineCount none = 0
    ∧ (2 : Nat) ≠ 0 + 1 :=
  ⟨rfl, rfl, by decide⟩

/-- C5: with no persisted record, no standing refresh credential and no grant
code, `getValidAccessToken` fails with the no-authentication error; on a
refresh failure it deletes the persisted record exactly when a grant code is
still configured, and in either case signals the refresh failure. -/
theorem getValidAccessToken_failure_spec :
    (∀ env, envSet env.refreshEnv = false → envSet env.grantCode = false →
      getValidAccessToken env none =
        (.error "No authentication method available. Set ZOHO_REFRESH_TOKEN or ZOHO_GRANT_CODE.",
          none))
    ∧ (∀ env tok e, tokenExpired env.now tok.expires_at = true → env.refreshResp = .error e →
        envSet env.grantCode = true →
        getValidAccessToken env (some tok) = (.error "Zoho token refresh failed.", none))
    ∧ (∀ env tok e, tokenExpired env.now tok.expires_at = true → env.refreshResp = .error e →
        envSet env.grantCode = false →
        getValidAccessToken env (some tok) = (.error "Zoho token refresh failed.", some tok)) := by
  refine ⟨?_, ?_, ?_⟩
  · intro env h1 h2
    simp [getValidAccessToken, h1, h2]
  · intro env tok e h1 h2 h3
    simp [getValidAccessToken, h1, h2, h3]
  · intro env tok e h1 h2 h3
    simp [getValidAccessToken, h1, h2, h3]

def envC5a : AuthEnv := ⟨none, none, 0, .error "e", .error "e", true⟩

def envC5b : AuthEnv := ⟨none, some "grant", 1000000, .error "e", .error "refresh down", true⟩

def envC5c : AuthEnv := ⟨none, none, 1000000, .error "e", .error "refresh down", true⟩

def tokC5 : TokenRecord := ⟨some "a", some "r", some 0⟩

/-- C5 witness: the three failure paths at concrete inputs — no credential at
all, refresh failure with a grant code (record deleted), refresh failure
without one (record kept). -/
theorem getValidAccessToken_failure_witness :
    getValidAccessToken envC5a none =
      (.error "No authentication method available. Set ZOHO_REFRESH_TOKEN or ZOHO_GRANT_CODE.",
        none)
    ∧ getValidAccessToken envC5b (some tokC5) = (.error "Zoho token refresh failed.", none)
    ∧ getValidAccessToken envC5c (some tokC5) = (.error "Zoho token refresh failed.", some tokC5) :=
  ⟨getValidAccessToken_failure_spec.1 envC5a rfl rfl,
    getValidAccessToken_failure_spec.2.1 envC5b tokC5 "refresh down" rfl rfl rfl,
    getValidAccessToken_failure_spec.2.2 envC5c tokC5 "refresh down" rfl rfl rfl⟩

/-- C6 (amended): once a token is obtained and the `A1:A10` content query
answers with `rows`, the payload submitted by `appendToZohoSheet` is prefixed
with the full fixed header row if and only if no returned row has its FIRST
cell exactly equal to `"Date"` (later cells of a row are not examined). -/
theorem headers_inserted_iff_first_cell (env : ZohoEnv) (tokFile : Option TokenRecord)
    (data : JSVal) (nowISO : String) (t : Option String) (rows : List (List (Option String)))
    (h1 : (getValidAccessToken env.auth tokFile).1 = .ok t) (h2 : env.checkResp = .ok rows) :
    (appendToZohoSheet env tokFile data nowISO).1.sent = some (zohoCsvContent rows data nowISO)
    ∧ zohoCsvContent rows data nowISO
        = (if headerFound rows then dataRowLine data nowISO
           else headerRowLine ++ "\n" ++ dataRowLine data nowISO)
    ∧ (headerFound rows = true ↔ ∃ row ∈ rows, row.head? = some (some "Date")) := by
  refine ⟨?_, ?_, headerFound_iff rows⟩
  · cases h3 : env.appendResp <;> simp [appendToZohoSheet, h1, h2, h3]
  · rw [zohoCsvContent]
    cases hf : headerFound rows
    · rfl
    · rw [if_pos rfl]
      exact empty_append _

def envC6 : ZohoEnv :=
  ⟨⟨none, none, 0, .error "x", .error "y", true⟩, .ok [[some "Date"]], .ok "success"⟩

def tokC6 : TokenRecord := ⟨some "acc", some "r", some 100000⟩

/-- C6 witness: a fresh token and a query response whose first row's first
cell is `"Date"` — the submitted payload is exactly the data line, with no
header prefix. -/
theorem headers_inserted_iff_first_cell_witness :
    (appendToZohoSheet envC6 (some tokC6) (JSVal.obj []) "T").1.sent
      = some (zohoCsvContent [[some "Date"]] (JSVal.obj []) "T")
    ∧ (headerFound [[some "Date"]] = true
        ↔ ∃ row ∈ ([[some "Date"]] : List (List (Option String))),
            row.head? = some (some "Date")) := by
  have h := headers_inserted_iff_first_cell envC6 (some tokC6) (JSVal.obj []) "T"
    (some "acc") [[some "Date"]] rfl rfl
  exact ⟨h.1, h.2.2⟩

/-- C6 counterexample: a response row containing `"Date"` in a later (not
first) cell does contain a cell equal to `"Date"`, yet the code's scan misses
it and the payload is still prefixed with the header row. -/
theorem headers_inserted_iff_first_cell_cex :
    ([[some "x", some "Date"]] : List (List (Option String))).any
        (fun row => row.any (fun c => c == some "Date")) = true
    ∧ headerFound [[some "x", some "Date"]] = false
    ∧ zohoCsvContent [[some "x", some "Date"]] (JSVal.obj []) "T"
        = headerRowLine ++ "\n" ++ dataRowLine (JSVal.obj []) "T" :=
  ⟨by decide, by decide, rfl⟩

/-- C7: `getBestMatch` is exactly the first-match-wins cascade of the three
resolution steps — exact key match, then normalized key match over the
record's keys, then alias match through the mapping table indexed by the
canonical key — and when all three fail it returns `none` (no error). -/
theorem getBestMatch_resolution_order (data : JSVal) (header : String) :
    getBestMatch data header =
      ((resolveExact data header).orElse (fun _ =>
        (resolveNormKey data header).orElse (fun _ => resolveAlias data header))) := by
  simp only [getBestMatch, resolveExact, resolveNormKey, resolveAlias]
  cases h1 : jsGet data header with
  | some v => simp [Option.orElse]
  | none =>
    cases h2 : (objEntries data).find? (fun kv => jsNorm kv.1 == jsNorm header) with
    | some kv => simp [Option.orElse, h2]
    | none =>
      cases h3 : FIELD_MAPPINGS.find?
          (fun m => (m.2.any (fun a => jsNorm a == jsNorm header)) && (jsGet data m.1).isSome) with
      | some m => simp [Option.orElse, h2, h3]
      | none => simp [Option.orElse, h2, h3]

/-- C8 (amended): when the handler reaches the local log append (the body
parsed to a non-null value) and that append fails, the error is caught by the
handler's single `try/catch` and converted into a handled 400 response
carrying the error message, leaving both files untouched; it does not
propagate as an uncaught error. -/
theorem local_append_error_caught (env : ZohoEnv) (data : JSVal) (m nowISO : String)
    (csvFile : Option String) (tokFile : Option TokenRecord) (hN : isNullV data = false) :
    handleSave env (.ok data) (some m) nowISO csvFile tokFile
      = ⟨⟨400, false, none, some m⟩, csvFile, tokFile⟩ := by
  simp [handleSave, hN]

def envC8 : ZohoEnv := ⟨⟨none, none, 0, .error "x", .error "x", true⟩, .ok [], .ok "success"⟩

/-- C8 witness: a concrete failing append on an object body is answered with
the handled 400 response carrying the append error, files untouched. -/
theorem local_append_error_caught_witness :
    handleSave envC8 (.ok (JSVal.obj [("x", JSVal.str "1")])) (some "disk full") "T"
        (some "log\n") none
      = ⟨⟨400, false, none, some "disk full"⟩, some "log\n", none⟩ :=
  local_append_error_caught envC8 (JSVal.obj [("x", JSVal.str "1")]) "disk full" "T"
    (some "log\n") none rfl

/-- C8 counterexample: a concrete failing append is answered with a handled
HTTP 400 error response (the generic catch), contradicting the claim that it
would propagate uncaught rather than become an HTTP error response. -/
theorem local_append_error_caught_cex :
    handleSave envC8 (.ok (JSVal.obj [("name", JSVal.str "A")]))
        (some "EACCES: permission denied") "T" (some "h\n") none
      = ⟨⟨400, false, none, some "EACCES: permission denied"⟩, some "h\n", none⟩ := rfl

/-- C9: the CSV quoting scheme (wrap in double quotes after doubling each
embedded double quote) round-trips: standard CSV unquoting of `csvQuote s`
recovers exactly `s`, in particular for strings containing double quotes. -/
theorem csvQuote_roundTrip (s : String) : csvUnquote (csvQuote s) = some s := by
  have h : (csvQuote s).data = '"' :: (escapeQuotes s.data ++ ['"']) := rfl
  rw [csvUnquote, h]
  simp [parseQuoted_escape, asString_data]

/-- C10 (amended): the handler enforces no object shape: any successfully
parsed non-null body — including a non-object value such as the JSON number
`5` — is processed normally: the log row is appended, the sheet append is
invoked, and the response is 200 with `success: true`, never a 400 validation
error.  The JSON `null` body is the one exception: the `data.name` read of
line 287 throws a `TypeError` on it, caught into a 400. -/
theorem handler_accepts_non_object (env : ZohoEnv) (v : JSVal) (nowISO : String)
    (csvFile : Option String) (tokFile : Option TokenRecord) (hN : isNullV v = false) :
    (handleSave env (.ok v) none nowISO csvFile tokFile).resp.code = 200
    ∧ (handleSave env (.ok v) none nowISO csvFile tokFile).resp.success = true
    ∧ (handleSave env (.ok v) none nowISO csvFile tokFile).resp.error = none
    ∧ (handleSave env (.ok v) none nowISO csvFile tokFile).resp.zoho
        = some (appendToZohoSheet env tokFile v nowISO).1.status
    ∧ (handleSave env (.ok v) none nowISO csvFile tokFile).csvFile
        = some (csvFile.getD "" ++ localCsvRow v csvFile.isSome) := by
  refine ⟨?_, ?_, ?_, ?_, ?_⟩ <;> simp [handleSave, hN]

def envC10 : ZohoEnv := ⟨⟨none, none, 0, .error "x", .error "x", true⟩, .ok [], .ok "success"⟩

/-- C10 witness: the JSON number `5` (body `"5"`) flows through and is
answered 200 with `success: true`. -/
theorem handler_accepts_non_object_witness :
    (handleSave envC10 (.ok (JSVal.num 5)) none "T" none none).resp.code = 200
    ∧ (handleSave envC10 (.ok (JSVal.num 5)) none "T" none none).resp.success = true := by
  have h := handler_accepts_non_object envC10 (JSVal.num 5) "T" none none rfl
  exact ⟨h.1, h.2.1⟩

/-- C10 counterexample: the body `"null"` parses to a non-object value, yet it
is not processed normally: the `data.name` read of line 287 throws on `null`
and the handler answers 400 with `success: false`, refuting the universal
200-for-every-parsable-body claim. -/
theorem handler_null_body_cex :
    handleSave envC10 (.ok JSVal.null) none "T" (some "h\n") none
      = ⟨⟨400, false, none, some nullReadError⟩, some "h\n", none⟩
    ∧ (handleSave envC10 (.ok JSVal.null) none "T" (some "h\n") none).resp.code ≠ 200 :=
  ⟨rfl, by decide⟩

end LandingBackend
